import Mathlib

/-!
Verification of the bootstrap / lifecycle core of the indigo-player
`Instance` class (src/Instance.ts), as a shallow embedding.

The `Instance` class orchestrates: polyfill loading, environment snapshot,
controller resolution + boot, extension resolution, player resolution,
media selection, controller load, ready/error events, autoplay, teardown.

External collaborators (the module loader `createFirstSupported` /
`createAllSupported`, `selectMedia`, `getEnv`, the controller's
`boot`/`load`/`unload`, the DOM) are not part of the translated file; their
outcomes are supplied through an `InitOracle` record, one field per awaited
call, exactly where `Instance.init` awaits them.  Observable behaviour
(calls made on the controller, events emitted through the event emitter,
DOM teardown) is recorded in a trace of `Ev` events; a thrown TypeScript
exception (an uncaught `TypeError` from dereferencing a null/undefined
field, or a propagated rejection) is recorded in the `thrown` field of a
`MethodResult`.
-/

namespace IndigoPlayer

/-- A JavaScript-level exceptional outcome: either a `TypeError` from
dereferencing a `null`/`undefined` field, or an external rejection cause
(identified by a tag, standing for an arbitrary JS error object). -/
inductive JsError where
  | nullDeref : JsError
  | external : Nat → JsError
deriving DecidableEq, Repr

/-- Error codes used by `Instance.init` (from `ErrorCodes` in `@src/types`). -/
inductive ErrorCodes where
  | NO_SUPPORTED_FORMAT_FOUND : ErrorCodes
  | CONTROLLER_LOAD_FAILED : ErrorCodes
deriving DecidableEq, Repr

/-- Modelled from the spec: `PlayerError` (the class `@src/PlayerError`,
not under src/) is a failure condition carrying an error code and an
optional underlying cause (`new PlayerError(code)`,
`new PlayerError(code, error)`). -/
structure PlayerError where
  code : ErrorCodes
  underlying : Option JsError
deriving DecidableEq, Repr

/-- Lifecycle event names emitted by `Instance` (`Events.READY`,
`Events.ERROR`, `Events.DESTROY`). -/
inductive EventName where
  | READY : EventName
  | ERROR : EventName
  | DESTROY : EventName
deriving DecidableEq, Repr

/-- A pluggable module (controller, player, media backend or extension):
for the lifecycle logic only its stable `name` matters. -/
structure Module where
  name : String
deriving DecidableEq, Repr

/-- A selected format identifier (the `Format` from `@src/types`),
opaque to the lifecycle logic. -/
structure Format where
  id : String
deriving DecidableEq, Repr

/-- The environment snapshot (`Env`), as consumed by `Instance`:
only the `canAutoplay` capability flag is read. -/
structure Env where
  canAutoplay : Bool
deriving DecidableEq, Repr

/-- The player configuration fields read by `Instance`
(`config.sources`, `config.autoplay`, `config.ignorePolyfills`);
source descriptors are opaque strings. -/
structure Config where
  sources : List String
  autoplay : Bool
  ignorePolyfills : Bool
deriving DecidableEq, Repr

/-- One observable step of an `Instance`: a call to a stage of `init`, a
call on the controller, an emitted event (with its error payload when it
is an error event), or teardown bookkeeping. -/
inductive Ev where
  | importPolyfills : Ev
  | getEnvCall : Ev
  | resolveController : Ev
  | bootController : Ev
  | resolveExtensions : Ev
  | resolvePlayer : Ev
  | selectMediaCall : Ev
  | controllerLoad : Ev
  | controllerUnload : Ev
  | controllerPlay : Ev
  | controllerPause : Ev
  | controllerSeekTo : Int → Ev
  | controllerSetVolume : Int → Ev
  | emit : EventName → Option PlayerError → Ev
  | removeAllListeners : Ev
  | domTeardown : Ev
deriving DecidableEq, Repr

/-- The mutable fields of an `Instance`.  TypeScript fields start out
`undefined` and `destroy()` sets some of them to `null`; both are `none`
here, since both make a method dereferencing the field throw. -/
structure InstanceState where
  config : Config
  env : Option Env
  controller : Option Module
  player : Option Module
  media : Option Module
  format : Option Format
  extensions : Option (List Module)
deriving DecidableEq, Repr

/-- Result of running a method: the state afterwards, the trace of
observable events it produced, and the exception it threw (if any). -/
structure MethodResult where
  state : InstanceState
  trace : List Ev
  thrown : Option JsError
deriving DecidableEq, Repr

/-- Outcomes of the external async calls awaited by `Instance.init`, in
the order `init` awaits them: the environment snapshot, controller
resolution, `controller.boot()`, extension resolution, player resolution,
media selection, and `controller.load()`.  Modelled from the spec:
`selectMedia` (not under src/) returns the first playable
(format, media-backend) pair, or a not-found sentinel when no source
matches any format, hence an `Option` of a pair. -/
structure InitOracle where
  env : Env
  controllerRes : Except JsError Module
  bootRes : Except JsError Unit
  extensionsRes : List Module
  playerRes : Except JsError Module
  selected : Option (Format × Module)
  loadRes : Except JsError Unit
deriving Repr

/-- `Instance.canAutoplay()`: `this.config.autoplay && this.env.canAutoplay`.
(`&&` short-circuits, so an unset `env` is only dereferenced when
`autoplay` is true; within `init` it is always set by then.) -/
def canAutoplay (s : InstanceState) : Bool :=
  s.config.autoplay && (match s.env with
    | some e => e.canAutoplay
    | none => false)

/-- `Instance.setError(error)`: `this.controller.unload()` (a `TypeError`
when the controller is unset), then emit an `error` event carrying the
condition.  Nulls nothing. -/
def setError (s : InstanceState) (e : PlayerError) : MethodResult :=
  match s.controller with
  | none => ⟨s, [], some JsError.nullDeref⟩
  | some _ => ⟨s, [Ev.controllerUnload, Ev.emit EventName.ERROR (some e)], none⟩

/-- `Instance.play()`: `this.controller.play()`. -/
def play (s : InstanceState) : MethodResult :=
  match s.controller with
  | none => ⟨s, [], some JsError.nullDeref⟩
  | some _ => ⟨s, [Ev.controllerPlay], none⟩

/-- `Instance.pause()`: `this.controller.pause()`. -/
def pause (s : InstanceState) : MethodResult :=
  match s.controller with
  | none => ⟨s, [], some JsError.nullDeref⟩
  | some _ => ⟨s, [Ev.controllerPause], none⟩

/-- `Instance.seekTo(time)`: `this.controller.seekTo(time)`. -/
def seekTo (s : InstanceState) (time : Int) : MethodResult :=
  match s.controller with
  | none => ⟨s, [], some JsError.nullDeref⟩
  | some _ => ⟨s, [Ev.controllerSeekTo time], none⟩

/-- `Instance.setVolume(volume)`: `this.controller.setVolume(volume)`. -/
def setVolume (s : InstanceState) (volume : Int) : MethodResult :=
  match s.controller with
  | none => ⟨s, [], some JsError.nullDeref⟩
  | some _ => ⟨s, [Ev.controllerSetVolume volume], none⟩

/-- `Instance.destroy()`: emit `destroy`, remove all listeners, then
`this.controller.unload()` — a `TypeError` when the controller is already
nulled (the first two side effects have happened by then) — then null
`controller`/`player`/`format`/`media` (but not `extensions`) and tear
down the container subtree. -/
def destroy (s : InstanceState) : MethodResult :=
  match s.controller with
  | none =>
      ⟨s, [Ev.emit EventName.DESTROY none, Ev.removeAllListeners],
        some JsError.nullDeref⟩
  | some _ =>
      ⟨{ s with controller := none, player := none, format := none, media := none },
        [Ev.emit EventName.DESTROY none, Ev.removeAllListeners,
          Ev.controllerUnload, Ev.domTeardown],
        none⟩

/-- `Instance.getModule(name)`: builds
`[...this.extensions, this.controller, this.media, this.player]`
(spreading an unset `extensions` throws) and returns the first entry whose
`name` matches; null entries never match the lodash `find` matcher. -/
def getModule (s : InstanceState) (nm : String) : Except JsError (Option Module) :=
  match s.extensions with
  | none => Except.error JsError.nullDeref
  | some exts =>
      Except.ok
        (((exts.map some ++ [s.controller, s.media, s.player]).filterMap id).find?
          (fun md => md.name == nm))

/-- `Instance.init(config)`, with each awaited external call answered by
the oracle.  Stage calls are traced in program order; a rejection of
controller/player resolution or of `boot()` propagates (unhandled);
a missing media pair or a `load()` rejection is converted via `setError`.
After the `ready` event, `play()` runs iff `canAutoplay()`. -/
def init (s : InstanceState) (o : InitOracle) : MethodResult :=
  let tr0 : List Ev :=
    if s.config.ignorePolyfills then [] else [Ev.importPolyfills]
  let tr1 := tr0 ++ [Ev.getEnvCall]
  let s1 := { s with env := some o.env }
  let tr2 := tr1 ++ [Ev.resolveController]
  match o.controllerRes with
  | Except.error e => ⟨s1, tr2, some e⟩
  | Except.ok c =>
    let s2 := { s1 with controller := some c }
    let tr3 := tr2 ++ [Ev.bootController]
    match o.bootRes with
    | Except.error e => ⟨s2, tr3, some e⟩
    | Except.ok _ =>
      let tr4 := tr3 ++ [Ev.resolveExtensions]
      let s3 := { s2 with extensions := some o.extensionsRes }
      let tr5 := tr4 ++ [Ev.resolvePlayer]
      match o.playerRes with
      | Except.error e => ⟨s3, tr5, some e⟩
      | Except.ok p =>
        let s4 := { s3 with player := some p }
        let tr6 := tr5 ++ [Ev.selectMediaCall]
        match o.selected with
        | none =>
          let r := setError s4 ⟨ErrorCodes.NO_SUPPORTED_FORMAT_FOUND, none⟩
          ⟨r.state, tr6 ++ r.trace, r.thrown⟩
        | some (f, m) =>
          let s5 := { s4 with format := some f, media := some m }
          let tr7 := tr6 ++ [Ev.controllerLoad]
          match o.loadRes with
          | Except.error e =>
            let r := setError s5 ⟨ErrorCodes.CONTROLLER_LOAD_FAILED, some e⟩
            ⟨r.state, tr7 ++ r.trace, r.thrown⟩
          | Except.ok _ =>
            let tr8 := tr7 ++ [Ev.emit EventName.READY none]
            ⟨s5,
              tr8 ++ (if canAutoplay s5 then [Ev.controllerPlay] else []),
              none⟩

/-- Is this event an emitted `ready` event? -/
def isReadyEmit : Ev → Bool
  | Ev.emit EventName.READY _ => true
  | _ => false

/-- Is this event an emitted `error` event? -/
def isErrorEmit : Ev → Bool
  | Ev.emit EventName.ERROR _ => true
  | _ => false

/-- Is this event a call of `controller.unload()`? -/
def isUnload : Ev → Bool
  | Ev.controllerUnload => true
  | _ => false

/-- Is this event the start of one of the eight `init` stages? -/
def isStage : Ev → Bool
  | Ev.importPolyfills => true
  | Ev.getEnvCall => true
  | Ev.resolveController => true
  | Ev.bootController => true
  | Ev.resolveExtensions => true
  | Ev.resolvePlayer => true
  | Ev.selectMediaCall => true
  | Ev.controllerLoad => true
  | _ => false

/-- The stages of `init` in program order (polyfilling only when not
ignored). -/
def canonicalStages (ignorePolyfills : Bool) : List Ev :=
  (if ignorePolyfills then [] else [Ev.importPolyfills]) ++
    [Ev.getEnvCall, Ev.resolveController, Ev.bootController,
      Ev.resolveExtensions, Ev.resolvePlayer, Ev.selectMediaCall,
      Ev.controllerLoad]

/-- Follows the spec's words (for comparison with `getModule`): a linear
search across all currently-resolved modules, extensions first in their
resolved order, then controller, then media, then player, returning the
first match or nothing. -/
def specModuleSearch (exts : List Module) (c m p : Option Module)
    (nm : String) : Option Module :=
  (exts ++ c.toList ++ m.toList ++ p.toList).find? (fun md => md.name == nm)

/-! Concrete sample data used by witnesses and counterexamples. -/

def cMod : Module := ⟨"html5-controller"⟩
def pMod : Module := ⟨"main-player"⟩
def mMod : Module := ⟨"dash-media"⟩
def xMod : Module := ⟨"analytics"⟩
def fmtSample : Format := ⟨"mp4"⟩

def cfgSample : Config := ⟨["https://example.test/a.mp4"], true, false⟩

/-- An `Instance` as the constructor leaves it before `init` runs. -/
def freshState : InstanceState :=
  ⟨cfgSample, none, none, none, none, none, none⟩

/-- Oracle for a fully successful bootstrap. -/
def okOracle : InitOracle :=
  ⟨⟨true⟩, Except.ok cMod, Except.ok (), [xMod], Except.ok pMod,
    some (fmtSample, mMod), Except.ok ()⟩

/-- Oracle for a bootstrap where the media selector finds no pair. -/
def noMediaOracle : InitOracle :=
  { okOracle with selected := none }

/-- Oracle for a bootstrap where `controller.load()` rejects. -/
def loadFailOracle : InitOracle :=
  { okOracle with loadRes := Except.error (JsError.external 7) }

/-- The state after a fully successful bootstrap (the `Ready` state). -/
def readyState : InstanceState := (init freshState okOracle).state

/-- The state after `destroy()` was called on a ready instance. -/
def destroyedState : InstanceState := (destroy readyState).state

/-- C1 (counterexample): on a ready instance with an extension named
"analytics", a second `destroy()` throws (`this.controller.unload()` on
the nulled controller), and after the first `destroy()` `getModule`
still returns the extension — `extensions` is never cleared.  So the
claim, as stated, is false. -/
theorem C1_destroy_idempotent_counterexample :
    ¬ ((destroy (destroy readyState).state).thrown = none
        ∧ getModule (destroy readyState).state "analytics" = Except.ok none) := by
  intro h
  exact absurd h.1 (by decide)

/-- C1 (amended): from any state with a controller (in particular Ready or
Error), the first `destroy()` succeeds and nulls `controller`, `player`,
`media` and `format`; afterwards `getModule` searches only the surviving
extensions (so it returns nothing only for names no extension carries);
a second `destroy()` re-emits `destroy` and removes listeners, then throws
a null-dereference on `this.controller.unload()`. -/
theorem C1_destroy_amended (s : InstanceState) (c : Module) (exts : List Module)
    (hc : s.controller = some c) (hx : s.extensions = some exts) :
    (destroy s).thrown = none
      ∧ (destroy s).state.controller = none
      ∧ (destroy s).state.player = none
      ∧ (destroy s).state.media = none
      ∧ (destroy s).state.format = none
      ∧ (∀ nm : String, getModule (destroy s).state nm
          = Except.ok (exts.find? (fun md => md.name == nm)))
      ∧ (destroy (destroy s).state).thrown = some JsError.nullDeref := by
  refine ⟨?_, ?_, ?_, ?_, ?_, ?_, ?_⟩ <;>
    simp [destroy, getModule, hc, hx]

/-- C1 (witness): the amended destroy behaviour at the concrete ready
state with the "analytics" extension. -/
theorem C1_destroy_amended_witness :
    readyState.controller = some cMod ∧ readyState.extensions = some [xMod]
      ∧ (destroy readyState).thrown = none
      ∧ getModule (destroy readyState).state "analytics"
          = Except.ok ([xMod].find? (fun md => md.name == "analytics"))
      ∧ (destroy (destroy readyState).state).thrown = some JsError.nullDeref := by
  have h := C1_destroy_amended readyState cMod [xMod] rfl rfl
  exact ⟨rfl, rfl, h.1, h.2.2.2.2.2.1 "analytics", h.2.2.2.2.2.2⟩

/-- C8: `getModule(name)` returns exactly the first name-match in the
order extensions (in resolved order), controller, media, player, and
nothing when no resolved module has that name — it agrees with the
spec-worded linear search `specModuleSearch`. -/
theorem C8_getModule_first_match (s : InstanceState) (exts : List Module)
    (nm : String) (hx : s.extensions = some exts) :
    getModule s nm
      = Except.ok (specModuleSearch exts s.controller s.media s.player nm) := by
  cases hc : s.controller <;> cases hm : s.media <;> cases hp : s.player <;>
    simp [getModule, specModuleSearch, hx, hc, hm, hp]

/-- C8 (witness): the lookup agreement at the concrete ready state. -/
theorem C8_getModule_first_match_witness :
    readyState.extensions = some [xMod]
      ∧ getModule readyState "dash-media"
          = Except.ok (specModuleSearch [xMod] readyState.controller
              readyState.media readyState.player "dash-media") :=
  ⟨rfl, C8_getModule_first_match readyState [xMod] "dash-media" rfl⟩

/-- C9 (counterexample): after `destroy()`, every playback operation
throws a null-dereference `TypeError` (`this.controller` is null) rather
than being a no-op or a labeled misuse condition, so the claim that they
"never crash" is false. -/
theorem C9_playback_counterexample :
    ¬ ((play destroyedState).thrown = none
        ∧ (pause destroyedState).thrown = none
        ∧ (seekTo destroyedState 10).thrown = none
        ∧ (setVolume destroyedState 50).thrown = none) := by
  intro h
  exact absurd h.1 (by decide)

/-- C9 (amended): with no controller resolved (before resolution or after
`destroy()`), `play`, `pause`, `seekTo` and `setVolume` each throw a
null-dereference `TypeError`; they do not modify the instance state and
reach no controller call, so state is not corrupted — but the failure is
an unlabeled crash, not a no-op or misuse condition. -/
theorem C9_playback_amended (s : InstanceState) (t v : Int)
    (h : s.controller = none) :
    ((play s).thrown = some JsError.nullDeref ∧ (play s).state = s
        ∧ (play s).trace = [])
      ∧ ((pause s).thrown = some JsError.nullDeref ∧ (pause s).state = s
        ∧ (pause s).trace = [])
      ∧ ((seekTo s t).thrown = some JsError.nullDeref ∧ (seekTo s t).state = s
        ∧ (seekTo s t).trace = [])
      ∧ ((setVolume s v).thrown = some JsError.nullDeref
        ∧ (setVolume s v).state = s ∧ (setVolume s v).trace = []) := by
  simp [play, pause, seekTo, setVolume, h]

/-- C9 (witness): the amended playback behaviour at the concrete
destroyed state. -/
theorem C9_playback_amended_witness :
    destroyedState.controller = none
      ∧ (play destroyedState).thrown = some JsError.nullDeref
      ∧ (play destroyedState).state = destroyedState := by
  have h := C9_playback_amended destroyedState 10 50 rfl
  exact ⟨rfl, h.1.1, h.1.2.1⟩

/-- C10: `format` and `media` are assigned together in `init`: starting
from a state in which both are unset, after `init` either both are set
(a pair was selected) or both are still unset (the selector found no
pair, or an earlier stage rejected). -/
theorem C10_format_media_together (s : InstanceState) (o : InitOracle)
    (hf : s.format = none) (hm : s.media = none) :
    (init s o).state.format.isSome = (init s o).state.media.isSome := by
  rcases o with ⟨env, cr, br, exts, pr, sel, lr⟩
  cases cr <;> cases br <;> cases pr <;> rcases sel with _ | ⟨f, m⟩ <;>
    cases lr <;> simp [init, setError, hf, hm]

/-- C10 (witness): the pairing at the concrete fresh state, under the
no-media oracle (both stay unset) — instantiating the theorem. -/
theorem C10_format_media_together_witness :
    freshState.format = none ∧ freshState.media = none
      ∧ (init freshState noMediaOracle).state.format.isSome
          = (init freshState noMediaOracle).state.media.isSome :=
  ⟨rfl, rfl, C10_format_media_together freshState noMediaOracle rfl rfl⟩

/-- C3: when the media selector returns no pair (and the earlier stages
succeeded), `init` emits exactly one error event, that event carries the
`NO_SUPPORTED_FORMAT_FOUND` condition, `controller.load()` is never
invoked, no ready event is emitted, and nothing is thrown. -/
theorem C3_no_media_error (s : InstanceState) (o : InitOracle) (c p : Module)
    (hc : o.controllerRes = Except.ok c) (hb : o.bootRes = Except.ok ())
    (hp : o.playerRes = Except.ok p) (hs : o.selected = none) :
    (init s o).trace.countP isErrorEmit = 1
      ∧ Ev.emit EventName.ERROR
          (some ⟨ErrorCodes.NO_SUPPORTED_FORMAT_FOUND, none⟩) ∈ (init s o).trace
      ∧ Ev.controllerLoad ∉ (init s o).trace
      ∧ (init s o).trace.countP isReadyEmit = 0
      ∧ (init s o).thrown = none := by
  cases hip : s.config.ignorePolyfills <;>
    simp [init, setError, hc, hb, hp, hs, hip, isErrorEmit, isReadyEmit]

/-- C3 (witness): the no-media outcome at the concrete fresh state and
no-media oracle. -/
theorem C3_no_media_error_witness :
    (init freshState noMediaOracle).trace.countP isErrorEmit = 1
      ∧ Ev.controllerLoad ∉ (init freshState noMediaOracle).trace
      ∧ (init freshState noMediaOracle).trace.countP isReadyEmit = 0 := by
  have h := C3_no_media_error freshState noMediaOracle cMod pMod rfl rfl rfl rfl
  exact ⟨h.1, h.2.2.1, h.2.2.2.1⟩

/-- C4: when `controller.load()` rejects with cause `e` (and the earlier
stages succeeded), `init` emits exactly one error event, that event
carries `CONTROLLER_LOAD_FAILED` wrapping `e`, `controller.unload()` is
invoked exactly once, and no ready event is emitted. -/
theorem C4_load_failed (s : InstanceState) (o : InitOracle) (c p : Module)
    (f : Format) (m : Module) (e : JsError)
    (hc : o.controllerRes = Except.ok c) (hb : o.bootRes = Except.ok ())
    (hp : o.playerRes = Except.ok p) (hs : o.selected = some (f, m))
    (hl : o.loadRes = Except.error e) :
    (init s o).trace.countP isErrorEmit = 1
      ∧ Ev.emit EventName.ERROR
          (some ⟨ErrorCodes.CONTROLLER_LOAD_FAILED, some e⟩) ∈ (init s o).trace
      ∧ (init s o).trace.countP isUnload = 1
      ∧ (init s o).trace.countP isReadyEmit = 0 := by
  cases hip : s.config.ignorePolyfills <;>
    simp [init, setError, hc, hb, hp, hs, hl, hip, isErrorEmit, isReadyEmit,
      isUnload]

/-- C4 (witness): the load-failure outcome at the concrete fresh state
and the oracle whose `load()` rejects with cause `external 7`. -/
theorem C4_load_failed_witness :
    (init freshState loadFailOracle).trace.countP isErrorEmit = 1
      ∧ Ev.emit EventName.ERROR
          (some ⟨ErrorCodes.CONTROLLER_LOAD_FAILED, some (JsError.external 7)⟩)
            ∈ (init freshState loadFailOracle).trace
      ∧ (init freshState loadFailOracle).trace.countP isUnload = 1 := by
  have h := C4_load_failed freshState loadFailOracle cMod pMod fmtSample mMod
    (JsError.external 7) rfl rfl rfl rfl rfl
  exact ⟨h.1, h.2.1, h.2.2.1⟩

/-- C5: on a successful bootstrap, `play()` is auto-invoked after the
ready event iff both `config.autoplay` and the environment snapshot's
`canAutoplay` flag are true. -/
theorem C5_autoplay_iff (s : InstanceState) (o : InitOracle) (c p : Module)
    (f : Format) (m : Module)
    (hc : o.controllerRes = Except.ok c) (hb : o.bootRes = Except.ok ())
    (hp : o.playerRes = Except.ok p) (hs : o.selected = some (f, m))
    (hl : o.loadRes = Except.ok ()) :
    Ev.controllerPlay ∈ (init s o).trace
      ↔ (s.config.autoplay = true ∧ o.env.canAutoplay = true) := by
  cases hip : s.config.ignorePolyfills <;> cases ha : s.config.autoplay <;>
    cases he : o.env.canAutoplay <;>
      simp [init, canAutoplay, hc, hb, hp, hs, hl, hip, ha, he]

/-- C5 (witness): with `autoplay = true` and `canAutoplay = true` in the
concrete successful bootstrap, `play()` is auto-invoked. -/
theorem C5_autoplay_iff_witness :
    Ev.controllerPlay ∈ (init freshState okOracle).trace := by
  exact (C5_autoplay_iff freshState okOracle cMod pMod fmtSample mMod
    rfl rfl rfl rfl rfl).mpr ⟨rfl, rfl⟩

/-- C6: event counts per outcome (after successful controller/boot/player
stages): a successful bootstrap emits exactly one ready event and no
error event; a bootstrap failing at media selection or at
`controller.load()` emits exactly one error event and no ready event. -/
theorem C6_event_counts (s : InstanceState) (o : InitOracle) (c p : Module)
    (hc : o.controllerRes = Except.ok c) (hb : o.bootRes = Except.ok ())
    (hp : o.playerRes = Except.ok p) :
    (∀ f : Format, ∀ m : Module, o.selected = some (f, m) →
        o.loadRes = Except.ok () →
        (init s o).trace.countP isReadyEmit = 1
          ∧ (init s o).trace.countP isErrorEmit = 0)
      ∧ (o.selected = none →
        (init s o).trace.countP isErrorEmit = 1
          ∧ (init s o).trace.countP isReadyEmit = 0)
      ∧ (∀ f : Format, ∀ m : Module, ∀ e : JsError,
        o.selected = some (f, m) → o.loadRes = Except.error e →
        (init s o).trace.countP isErrorEmit = 1
          ∧ (init s o).trace.countP isReadyEmit = 0) := by
  refine ⟨?_, ?_, ?_⟩
  · intro f m hs hl
    cases hip : s.config.ignorePolyfills <;> cases ha : s.config.autoplay <;>
      cases he : o.env.canAutoplay <;>
        simp [init, setError, canAutoplay, hc, hb, hp, hs, hl, hip, ha, he,
          isErrorEmit, isReadyEmit]
  · intro hs
    cases hip : s.config.ignorePolyfills <;>
      simp [init, setError, hc, hb, hp, hs, hip, isErrorEmit, isReadyEmit]
  · intro f m e hs hl
    cases hip : s.config.ignorePolyfills <;>
      simp [init, setError, hc, hb, hp, hs, hl, hip, isErrorEmit, isReadyEmit]

/-- C6 (witness): the successful concrete bootstrap emits one ready and
no error event. -/
theorem C6_event_counts_witness :
    (init freshState okOracle).trace.countP isReadyEmit = 1
      ∧ (init freshState okOracle).trace.countP isErrorEmit = 0 :=
  (C6_event_counts freshState okOracle cMod pMod rfl rfl rfl).1
    fmtSample mMod rfl rfl

/-- C7: stage ordering — for every oracle, the sequence of stage calls
`init` makes (polyfilling when not ignored, environment snapshot,
controller resolution, controller boot, extension resolution, player
resolution, media selection, controller load) is an initial segment of
the canonical program order: no stage runs before all earlier stages
have completed, and a stage that fails cuts the sequence off there. -/
theorem C7_stage_order (s : InstanceState) (o : InitOracle) :
    ((init s o).trace.filter isStage).isPrefixOf
      (canonicalStages s.config.ignorePolyfills) = true := by
  rcases o with ⟨env, cr, br, exts, pr, sel, lr⟩
  cases hip : s.config.ignorePolyfills <;>
    cases cr <;> cases br <;> cases pr <;> rcases sel with _ | ⟨f, m⟩ <;>
      cases lr <;>
        simp [init, setError, canonicalStages, isStage, hip,
          List.filter_append]

/-- C2 (counterexample): a bootstrap that fails at media selection emits
an error event (the instance is in the Error state), yet the controller
reference is still set — `setError` releases nothing, refuting
"Error implies controller/player/media have been released". -/
theorem C2_error_released_counterexample :
    (init freshState noMediaOracle).trace.countP isErrorEmit = 1
      ∧ ¬ ((init freshState noMediaOracle).state.controller = none) := by
  exact ⟨by decide, by decide⟩

/-- C2 (amended): Ready (a ready event was emitted) implies controller,
player, format and media are all non-null, and Destroyed (a completed
`destroy()`) implies controller, player and media are nulled — but in the
Error state (an error event was emitted by `init`) the controller and
player remain non-null: `setError` unloads the controller without
releasing any reference. -/
theorem C2_state_invariant_amended (s : InstanceState) (o : InitOracle)
    (sD : InstanceState) (c : Module) (hD : sD.controller = some c) :
    ((Ev.emit EventName.READY none ∈ (init s o).trace →
        (init s o).state.controller.isSome ∧ (init s o).state.player.isSome
          ∧ (init s o).state.format.isSome ∧ (init s o).state.media.isSome)
      ∧ (∀ pe : PlayerError,
          Ev.emit EventName.ERROR (some pe) ∈ (init s o).trace →
          (init s o).state.controller.isSome ∧ (init s o).state.player.isSome))
      ∧ (destroy sD).state.controller = none
      ∧ (destroy sD).state.player = none
      ∧ (destroy sD).state.media = none
      ∧ (destroy sD).state.format = none := by
  refine ⟨⟨?_, ?_⟩, ?_⟩
  · intro hmem
    rcases o with ⟨env, cr, br, exts, pr, sel, lr⟩
    cases hip : s.config.ignorePolyfills <;>
      cases cr <;> cases br <;> cases pr <;> rcases sel with _ | ⟨f, m⟩ <;>
        cases lr <;> simp [init, setError, hip] at hmem ⊢
  · intro pe hmem
    rcases o with ⟨env, cr, br, exts, pr, sel, lr⟩
    cases hip : s.config.ignorePolyfills <;>
      cases cr <;> cases br <;> cases pr <;> rcases sel with _ | ⟨f, m⟩ <;>
        cases lr <;> simp [init, setError, hip] at hmem ⊢
  · simp [destroy, hD]

/-- C2 (witness): the amended invariant applied at the concrete
successful bootstrap and destroy of the ready state. -/
theorem C2_state_invariant_amended_witness :
    readyState.controller = some cMod
      ∧ (destroy readyState).state.controller = none
      ∧ (destroy readyState).state.player = none
      ∧ (destroy readyState).state.media = none
      ∧ (destroy readyState).state.format = none := by
  have h := C2_state_invariant_amended freshState okOracle readyState cMod rfl
  exact ⟨rfl, h.2.1, h.2.2.1, h.2.2.2.1, h.2.2.2.2⟩

end IndigoPlayer
